import Mathlib

/-!
Verification of the molecular-structures chat bot (`src/bot.py`).

The development shallowly embeds the bot's pure core: Python string and list
primitives used by the code (`str.split`, `str.startswith`, `int(...)`,
list slicing and indexing), the catalog loader, the keyboard renderer
`create_keyboard`, the button dispatcher `button_callback` (with its outward
effects made explicit), the top-level `error_handler`, and the `main` startup
checks.  Machine integers are modelled as `Int`/`Nat` (Python integers are
unbounded, so no wrap-around is needed).  External interactions (the HTTP GET
outcome, the reload result, the JSON file condition) are inputs to the
embedded functions, and the messages/edits/HTTP calls the code performs are
returned as an ordered list of `Effect`s.
-/

/-- Model of a record from `compounds.json`: fields `formula`, `name`, `file`. -/
structure Compound where
  formula : String
  name : String
  file : String
deriving DecidableEq

instance : Inhabited Compound := ⟨⟨"", "", ""⟩⟩

/-- Value of digit characters, as used by Python `int` conversion:
`digitsVal ['4','2'] = 42`. -/
def digitsVal (l : List Char) : Nat :=
  l.foldl (fun a c => 10 * a + (c.toNat - 48)) 0

/-- Model of Python `str.strip()` restricted to what `int(...)` does first:
remove leading and trailing whitespace. -/
def pyStripSpace (l : List Char) : List Char :=
  ((l.dropWhile Char.isWhitespace).reverse.dropWhile Char.isWhitespace).reverse

/-- A nonempty all-digit character list (the body of a Python integer literal). -/
def pyDigits (l : List Char) : Bool :=
  !l.isEmpty && l.all Char.isDigit

/-- Model of Python `int(s)` on the characters of `s`: optional surrounding
whitespace, an optional sign, then one or more decimal digits; `none` models
the `ValueError` raised on any other input. -/
def parseIntChars (l : List Char) : Option Int :=
  let t := pyStripSpace l
  if t.head? = some '-' then
    if pyDigits (t.drop 1) then some (-(digitsVal (t.drop 1) : Int)) else none
  else if t.head? = some '+' then
    if pyDigits (t.drop 1) then some ((digitsVal (t.drop 1) : Int)) else none
  else if pyDigits t then some ((digitsVal t : Int)) else none

/-- Prepend a character to the first piece of a split result. -/
def consHead (c : Char) : List (List Char) → List (List Char)
  | [] => [[c]]
  | h :: t => (c :: h) :: t

/-- Model of Python `str.split("_")` on the character list of the string. -/
def pySplitUnderscore : List Char → List (List Char)
  | [] => [[]]
  | c :: rest =>
    if c = '_' then [] :: pySplitUnderscore rest
    else consHead c (pySplitUnderscore rest)

/-- Model of Python `s.startswith(pfx)`. -/
def pyStartsWith (s pfx : List Char) : Bool :=
  pfx.isPrefixOf s

/-- Decimal digits of a natural number, the way Python `str(n)` prints one. -/
def natReprChars (n : Nat) : List Char :=
  if _h : n < 10 then [Nat.digitChar n]
  else natReprChars (n / 10) ++ [Nat.digitChar (n % 10)]
decreasing_by exact Nat.div_lt_self (by omega) (by omega)

/-- Characters of Python `str(i)` for an arbitrary integer. -/
def intReprChars (i : Int) : List Char :=
  if i < 0 then '-' :: natReprChars (-i).toNat else natReprChars i.toNat

/-- Python `str(i)` as a Lean `String`. -/
def intReprStr (i : Int) : String := ⟨intReprChars i⟩

/-- Python `str(n)` for a natural number. -/
def natReprStr (n : Nat) : String := ⟨natReprChars n⟩

/-- Model of Python single-element list indexing `xs[i]`: non-negative indices
count from the front, negative indices from the back, and `none` models the
`IndexError` raised when the (normalized) index is out of range. -/
def pyGet {α : Type} (xs : List α) (i : Int) : Option α :=
  let j : Int := if i < 0 then i + (xs.length : Int) else i
  if 0 ≤ j then xs.get? j.toNat else none

/-- Model of Python list slicing `xs[a:b]` (step 1): negative bounds count
from the back, then both bounds are clamped to `[0, len(xs)]`. -/
def pySlice {α : Type} (xs : List α) (a b : Int) : List α :=
  let n : Int := (xs.length : Int)
  let a2 : Nat := (if a < 0 then max (a + n) 0 else min a n).toNat
  let b2 : Nat := (if b < 0 then max (b + n) 0 else min b n).toNat
  (xs.drop a2).take (b2 - a2)

/-- The possible conditions of `compounds.json` when `load_compounds` runs:
the file can be absent, hold malformed JSON, hold JSON without the
`compounds` key, or hold a well-formed compound list. -/
inductive LoadInput where
  | fileMissing
  | malformedJson
  | missingKey
  | ok (compounds : List Compound)
deriving DecidableEq

/-- Whether the load input is the well-formed case. -/
def LoadInput.isSuccess : LoadInput → Bool
  | .ok _ => true
  | _ => false

/-- The `logger.error` line `load_compounds` emits for each failure case
(`f"Error loading compounds.json: {e}"` with the exception text). -/
def loadErrText : LoadInput → String
  | .fileMissing => "Error loading compounds.json: file not found"
  | .malformedJson => "Error loading compounds.json: malformed JSON"
  | .missingKey => "Error loading compounds.json: missing compounds key"
  | .ok _ => ""

/-- Model of `load_compounds` (src/bot.py lines 30-38): returns
`data['compounds']` on success; on any exception logs the cause and returns
the empty list.  The second component is the list of emitted log lines. -/
def load_compounds (inp : LoadInput) : List Compound × List String :=
  match inp with
  | .ok cs => (cs, [])
  | e => ([], [loadErrText e])

/-- The fixed branch name (src/bot.py line 24). -/
def GITHUB_BRANCH : String := "compounds"

/-- `GITHUB_RAW_URL` (src/bot.py line 27), as a function of the two
environment-supplied identifiers. -/
def GITHUB_RAW_URL (username repo : String) : String :=
  "https://raw.githubusercontent.com/" ++ username ++ "/" ++ repo ++ "/" ++
    GITHUB_BRANCH ++ "/"

/-- One inline keyboard button: display text plus callback data token. -/
structure Button where
  text : String
  callback_data : String
deriving DecidableEq

/-- An inline keyboard: rows of buttons. -/
abbrev Keyboard := List (List Button)

/-- `ITEMS_PER_PAGE` (src/bot.py line 43). -/
def ITEMS_PER_PAGE : Nat := 8

/-- The page count `(N + ITEMS_PER_PAGE - 1) // ITEMS_PER_PAGE` from
src/bot.py line 67, with the page size generalized to a parameter. -/
def total_pages_gen (P N : Nat) : Nat := (N + P - 1) / P

/-- A compound selection button: text `f"{formula} - {name}"`, callback data
`f"compound_{j}"` (src/bot.py lines 60-62). -/
def compoundButton (j : Int) (c : Compound) : Button :=
  ⟨c.formula ++ " - " ++ c.name, "compound_" ++ intReprStr j⟩

/-- The button grid built by the loop at src/bot.py lines 55-63: two buttons
per row, callback indices counting up from `j`. -/
def buttonRows : List Compound → Int → List (List Button)
  | [], _ => []
  | [c], j => [[compoundButton j c]]
  | c1 :: c2 :: rest, j =>
    [compoundButton j c1, compoundButton (j + 1) c2] :: buttonRows rest (j + 2)

/-- The previous-page navigation button (src/bot.py line 70). -/
def prevButton (page : Int) : Button :=
  ⟨"⬅️ Previous", "page_" ++ intReprStr (page - 1)⟩

/-- The next-page navigation button (src/bot.py line 73). -/
def nextButton (page : Int) : Button :=
  ⟨"➡️ Next", "page_" ++ intReprStr (page + 1)⟩

/-- The refresh button (src/bot.py line 79). -/
def refreshButton : Button := ⟨"🔄 Refresh List", "refresh"⟩

/-- Model of `create_keyboard` (src/bot.py lines 45-81): slice the catalog to
the current page, lay the slice out two buttons per row, append the
navigation row when nonempty, then the refresh row. -/
def create_keyboard (compounds : List Compound) (page : Int) : Keyboard :=
  let start_idx : Int := page * (ITEMS_PER_PAGE : Int)
  let end_idx : Int := start_idx + (ITEMS_PER_PAGE : Int)
  let page_compounds := pySlice compounds start_idx end_idx
  let compound_rows := buttonRows page_compounds start_idx
  let nav : List Button :=
    (if 0 < page then [prevButton page] else []) ++
      (if page < (total_pages_gen ITEMS_PER_PAGE compounds.length : Int) - 1 then
        [nextButton page] else [])
  (compound_rows ++ (if nav.isEmpty then [] else [nav])) ++ [[refreshButton]]

/-- An outward call to the chat transport or the file host, in the order the
handler performs them. -/
inductive Effect where
  | answerQuery
  | editMessageText (text : String) (markup : Option Keyboard)
  | httpGet (url : String) (timeLimit : Nat)
  | sendDocument (body : String) (filename : String) (caption : String)
  | deleteMessage
  | sendMessage (text : String) (markup : Option Keyboard)
deriving DecidableEq

/-- Outcome of the single `requests.get` call: a 2xx response with its raw
body; a `requests.exceptions.RequestException` (connection error, timeout, or
the non-2xx `HTTPError` raised by `raise_for_status`); or any other
unexpected exception, with its text. -/
inductive FetchOutcome where
  | ok (body : String)
  | requestError
  | otherError (msg : String)
deriving DecidableEq

/-- A Python exception escaping `button_callback` uncaught. -/
inductive PyError where
  | valueError
  | indexError
deriving DecidableEq

/-- Result of one `button_callback` invocation: the catalog afterwards, the
ordered outward effects, and an uncaught exception if one propagates. -/
structure CallbackResult where
  compounds : List Compound
  effects : List Effect
  error : Option PyError
deriving DecidableEq

/-- Message shown above the compound menu (src/bot.py lines 124, 140). -/
def selectText : String := "📚 **Select a compound:**"

/-- Out-of-range fetch reply (src/bot.py line 162). -/
def notFoundText : String := "❌ Compound not found!"

/-- Refresh confirmation text with the new record count (src/bot.py
line 151). -/
def refreshText (n : Nat) : String :=
  "🔄 **List refreshed!**\n\n📚 **Available Compounds:** " ++ natReprStr n ++
    "\n\nSelect a compound:"

/-- Interim preparing notice (src/bot.py lines 168-171). -/
def loadingText (c : Compound) : String :=
  "⏳ **Preparing " ++ c.formula ++ " - " ++ c.name ++
    "...**\n\nDownloading file from GitHub..."

/-- Document caption (src/bot.py lines 186-194). -/
def captionText (c : Compound) : String :=
  "🧪 **" ++ c.formula ++ " - " ++ c.name ++
    "**\n\n📄 Download complete!\n\n**How to view:**\n1. Download the file\n2. Open with Chrome/Firefox\n3. Interact with the 3D structure!\n\n💡 *Tip: You can rotate, zoom, and explore the molecule!*"

/-- Success confirmation text (src/bot.py line 207). -/
def successText (c : Compound) : String :=
  "✅ **" ++ c.name ++ " sent successfully!**\n\nSelect another compound:"

/-- Failure text for a `RequestException`, naming the record's file
(src/bot.py lines 214-219). -/
def fetchErrText (c : Compound) : String :=
  "❌ **Error downloading file!**\n\nFile: `" ++ c.file ++
    "`\nError: Connection timeout or file not found\n\nPlease make sure the file exists in the `compounds` branch."

/-- Generic failure text for an unexpected exception (src/bot.py
lines 223-227). -/
def unexpectedErrText (msg : String) : String :=
  "❌ **Unexpected error occurred!**\n\nError: " ++ msg ++
    "\n\nPlease try again or contact support."

/-- The one-button back-to-page-0 keyboard (src/bot.py lines 201-203). -/
def backKeyboard : Keyboard := [[⟨"🔙 Back to List", "page_0"⟩]]

/-- The effects of the fetch-and-relay pipeline once a compound is selected
(src/bot.py lines 168-228): interim notice, one HTTP GET with timeout 30,
then either document + delete + confirmation (2xx) or an error edit. -/
def fetchEffects (base : String) (c : Compound) (http : FetchOutcome) :
    List Effect :=
  let pre : List Effect :=
    [.answerQuery, .editMessageText (loadingText c) none,
      .httpGet (base ++ c.file) 30]
  match http with
  | .ok body =>
    pre ++ [.sendDocument body c.file (captionText c), .deleteMessage,
      .sendMessage (successText c) (some backKeyboard)]
  | .requestError => pre ++ [.editMessageText (fetchErrText c) none]
  | .otherError msg => pre ++ [.editMessageText (unexpectedErrText msg) none]

/-- The token prefix `"page_"` as characters. -/
def pageTag : List Char := "page_".toList

/-- The token prefix `"compound_"` as characters. -/
def compoundTag : List Char := "compound_".toList

/-- The token `"refresh"` as characters. -/
def refreshTag : List Char := "refresh".toList

/-- Model of `button_callback` (src/bot.py lines 129-228).  `base` is the
module-level `GITHUB_RAW_URL` value, `compounds` the current catalog,
`reload` what `load_compounds()` would return if called now, `http` the
outcome of the single HTTP GET if one is issued, and `data` the callback
token.  Tokens are parsed exactly as the source does:
`int(data.split("_")[1])`, with a failed parse modelled as a propagating
`ValueError` and Python list indexing (including negative indices) modelled
by `pyGet`. -/
def button_callback (base : String) (compounds reload : List Compound)
    (http : FetchOutcome) (data : String) : CallbackResult :=
  let chars := data.toList
  if pyStartsWith chars pageTag then
    match (pySplitUnderscore chars).get? 1 with
    | none => ⟨compounds, [.answerQuery], some .indexError⟩
    | some payload =>
      match parseIntChars payload with
      | none => ⟨compounds, [.answerQuery], some .valueError⟩
      | some p =>
        ⟨compounds,
          [.answerQuery,
            .editMessageText selectText (some (create_keyboard compounds p))],
          none⟩
  else if chars = refreshTag then
    ⟨reload,
      [.answerQuery,
        .editMessageText (refreshText reload.length)
          (some (create_keyboard reload 0))],
      none⟩
  else if pyStartsWith chars compoundTag then
    match (pySplitUnderscore chars).get? 1 with
    | none => ⟨compounds, [.answerQuery], some .indexError⟩
    | some payload =>
      match parseIntChars payload with
      | none => ⟨compounds, [.answerQuery], some .valueError⟩
      | some idx =>
        if (compounds.length : Int) ≤ idx then
          ⟨compounds, [.answerQuery, .editMessageText notFoundText none], none⟩
        else
          match pyGet compounds idx with
          | none => ⟨compounds, [.answerQuery], some .indexError⟩
          | some c => ⟨compounds, fetchEffects base c http, none⟩
  else
    ⟨compounds, [.answerQuery], none⟩

/-- The generic apology sent by the top-level error handler (src/bot.py
lines 234-239). -/
def errHandlerText : String :=
  "❌ **Oops! Something went wrong.**\n\nPlease try again or use /start to restart the bot."

/-- Model of `error_handler` (src/bot.py lines 230-239): reply with the
generic apology when the triggering update still has a message context. -/
def error_handler (hasMessage : Bool) : List Effect :=
  if hasMessage then [.sendMessage errHandlerText none] else []

/-- Outcome of `main` (src/bot.py lines 241-270): either an early return
with the logged error, or polling starts with the loaded catalog. -/
inductive MainResult where
  | halted (logMsg : String)
  | serving (count : Nat)
deriving DecidableEq

/-- Python truthiness of an optional environment string (`not BOT_TOKEN`):
falsy when unset or empty. -/
def pyTruthy : Option String → Bool
  | none => false
  | some s => !s.isEmpty

namespace Bot

/-- Model of `main` (src/bot.py lines 241-270): the three startup guards in
order, then serving begins.  (Wrapped in a namespace because a bare `main`
is reserved by Lean for executables.) -/
def main (botToken username repo : Option String) (compounds : List Compound) :
    MainResult :=
  if !pyTruthy botToken then
    .halted "BOT_TOKEN not found! Please set it in environment variables."
  else if !pyTruthy username || !pyTruthy repo then
    .halted "GitHub configuration not found! Please set GITHUB_USERNAME and GITHUB_REPO."
  else if compounds.isEmpty then
    .halted "No compounds found in compounds.json!"
  else
    .serving compounds.length

end Bot

/-- The slice of the catalog shown on one page
(`COMPOUNDS[page*P : page*P + P]`, src/bot.py lines 48-52, with the page size
generalized to `P`). -/
def page_slice (compounds : List Compound) (P page : Nat) : List Compound :=
  pySlice compounds ((page * P : Nat) : Int) (((page * P + P : Nat)) : Int)

/-- All pages of the catalog in order, under the source's slicing scheme and
page-count formula. -/
def paginate (compounds : List Compound) (P : Nat) : List (List Compound) :=
  (List.range (total_pages_gen P compounds.length)).map (page_slice compounds P)

/-- The selection token `f"compound_{i}"`. -/
def mkCompoundToken (i : Int) : String := "compound_" ++ intReprStr i

/-- Recognizer for outbound HTTP calls among effects. -/
def isHttpGet : Effect → Bool
  | .httpGet _ _ => true
  | _ => false

/-- Recognizer for document sends among effects. -/
def isSendDocument : Effect → Bool
  | .sendDocument _ _ _ => true
  | _ => false

/-- Number of outbound HTTP calls in an effect list. -/
def countHttp (l : List Effect) : Nat := l.countP isHttpGet

/-- Sample compound used for concrete witnesses. -/
def cpdA : Compound := ⟨"H2O", "Water", "water.html"⟩

/-- Second sample compound used for concrete witnesses. -/
def cpdB : Compound := ⟨"CO2", "Carbon dioxide", "co2.html"⟩

/-- A ten-record catalog used for concrete witnesses (the spec's scenario has
ten records and page size eight). -/
def c10 : List Compound := List.replicate 10 cpdA

/-! ### Toolkit: digits, parsing, splitting -/

/-- Facts about the digit characters Python prints for `d < 10`. -/
theorem digitChar_facts (d : Nat) (h : d < 10) :
    (Nat.digitChar d).isDigit = true ∧ (Nat.digitChar d).isWhitespace = false ∧
    (Nat.digitChar d).toNat = 48 + d ∧ Nat.digitChar d ≠ '_' ∧
    Nat.digitChar d ≠ '-' ∧ Nat.digitChar d ≠ '+' := by
  interval_cases d <;> exact ⟨by decide, by decide, by decide, by decide, by decide, by decide⟩

/-- Every character of `natReprChars n` is a decimal digit character. -/
theorem natReprChars_mem (n : Nat) :
    ∀ c ∈ natReprChars n, ∃ d, d < 10 ∧ c = Nat.digitChar d := by
  induction n using Nat.strong_induction_on with
  | _ n ih =>
    intro c hc
    rw [natReprChars] at hc
    by_cases h : n < 10
    · rw [dif_pos h] at hc
      simp only [List.mem_singleton] at hc
      exact ⟨n, h, hc⟩
    · rw [dif_neg h] at hc
      rcases List.mem_append.mp hc with hc | hc
      · exact ih (n / 10) (Nat.div_lt_self (by omega) (by omega)) c hc
      · simp only [List.mem_singleton] at hc
        exact ⟨n % 10, Nat.mod_lt _ (by omega), hc⟩

/-- Character-level facts about the decimal representation of a natural. -/
theorem natReprChars_props (n : Nat) : ∀ c ∈ natReprChars n,
    c.isDigit = true ∧ c.isWhitespace = false ∧ c ≠ '_' ∧ c ≠ '-' ∧ c ≠ '+' := by
  intro c hc
  obtain ⟨d, hd, rfl⟩ := natReprChars_mem n c hc
  obtain ⟨h1, h2, _, h4, h5, h6⟩ := digitChar_facts d hd
  exact ⟨h1, h2, h4, h5, h6⟩

/-- The decimal representation of a natural is never empty. -/
theorem natReprChars_ne_nil (n : Nat) : natReprChars n ≠ [] := by
  rw [natReprChars]
  split <;> simp

/-- Appending one digit multiplies the accumulated value by ten. -/
theorem digitsVal_append_digit (l : List Char) (c : Char) :
    digitsVal (l ++ [c]) = 10 * digitsVal l + (c.toNat - 48) := by
  simp [digitsVal, List.foldl_append]

/-- Reading back the decimal representation recovers the number. -/
theorem digitsVal_natReprChars (n : Nat) : digitsVal (natReprChars n) = n := by
  induction n using Nat.strong_induction_on with
  | _ n ih =>
    rw [natReprChars]
    by_cases h : n < 10
    · rw [dif_pos h]
      have h3 := (digitChar_facts n h).2.2.1
      simp only [digitsVal, List.foldl_cons, List.foldl_nil]
      omega
    · rw [dif_neg h]
      rw [digitsVal_append_digit, ih (n / 10) (Nat.div_lt_self (by omega) (by omega))]
      have h3 := (digitChar_facts (n % 10) (Nat.mod_lt _ (by omega))).2.2.1
      rw [h3]
      omega

/-- `dropWhile` is the identity when no element satisfies the predicate. -/
theorem dropWhile_eq_self {p : Char → Bool} {l : List Char}
    (h : ∀ c ∈ l, p c = false) : l.dropWhile p = l := by
  cases l with
  | nil => rfl
  | cons a t =>
    rw [List.dropWhile_cons, h a (List.mem_cons_self a t)]
    simp

/-- Stripping whitespace from a whitespace-free list changes nothing. -/
theorem pyStripSpace_eq_self {l : List Char}
    (h : ∀ c ∈ l, c.isWhitespace = false) : pyStripSpace l = l := by
  unfold pyStripSpace
  rw [dropWhile_eq_self h,
    dropWhile_eq_self (fun c hc => h c (List.mem_reverse.mp hc)),
    List.reverse_reverse]

/-- A nonempty list of digit characters passes the `pyDigits` test. -/
theorem pyDigits_of {l : List Char} (hne : l ≠ [])
    (hd : ∀ c ∈ l, c.isDigit = true) : pyDigits l = true := by
  cases l with
  | nil => exact absurd rfl hne
  | cons a t =>
    simp only [pyDigits, List.isEmpty_cons, Bool.not_false, Bool.true_and,
      List.all_eq_true]
    exact hd

/-- Python `int` on a nonempty unsigned digit string returns its value. -/
theorem parseIntChars_digits {l : List Char} (hne : l ≠ [])
    (hp : ∀ c ∈ l, c.isDigit = true ∧ c.isWhitespace = false ∧
      c ≠ '_' ∧ c ≠ '-' ∧ c ≠ '+') :
    parseIntChars l = some ((digitsVal l : Nat) : Int) := by
  unfold parseIntChars
  rw [pyStripSpace_eq_self (fun c hc => (hp c hc).2.1)]
  cases l with
  | nil => exact absurd rfl hne
  | cons a t =>
    have ha := hp a (List.mem_cons_self a t)
    have h1 : ¬((a :: t : List Char).head? = some '-') := by
      simp only [List.head?_cons, Option.some.injEq]
      exact ha.2.2.2.1
    have h2 : ¬((a :: t : List Char).head? = some '+') := by
      simp only [List.head?_cons, Option.some.injEq]
      exact ha.2.2.2.2
    have h3 : pyDigits (a :: t) = true := by
      simp only [pyDigits, List.isEmpty_cons, Bool.not_false, Bool.true_and,
        List.all_eq_true]
      exact fun c hc => (hp c hc).1
    rw [if_neg h1, if_neg h2, if_pos h3]

/-- Round trip: Python `int(str(n))` returns `n` for a natural `n`. -/
theorem parseIntChars_natReprChars (n : Nat) :
    parseIntChars (natReprChars n) = some ((n : Nat) : Int) := by
  rw [parseIntChars_digits (natReprChars_ne_nil n) (natReprChars_props n),
    digitsVal_natReprChars]

/-- Round trip: Python `int(str(i))` returns `i` for any integer `i`. -/
theorem parseIntChars_intReprChars (i : Int) :
    parseIntChars (intReprChars i) = some i := by
  unfold intReprChars
  by_cases h : i < 0
  · rw [if_pos h]
    have hw : ∀ c ∈ '-' :: natReprChars (-i).toNat, c.isWhitespace = false := by
      intro c hc
      rcases List.mem_cons.mp hc with rfl | hc
      · decide
      · exact (natReprChars_props _ c hc).2.1
    unfold parseIntChars
    rw [pyStripSpace_eq_self hw]
    have h1 : ((('-' :: natReprChars (-i).toNat) : List Char).head? = some '-') := rfl
    rw [if_pos h1]
    have h3 : pyDigits (('-' :: natReprChars (-i).toNat).drop 1) = true := by
      show pyDigits (natReprChars (-i).toNat) = true
      exact pyDigits_of (natReprChars_ne_nil _)
        (fun c hc => (natReprChars_props _ c hc).1)
    rw [if_pos h3]
    simp only [List.drop_succ_cons, List.drop_zero, digitsVal_natReprChars,
      Option.some.injEq]
    omega
  · rw [if_neg h]
    rw [parseIntChars_natReprChars]
    congr 1
    omega

/-- The printed form of an integer contains no underscore. -/
theorem intReprChars_no_underscore (i : Int) : ∀ c ∈ intReprChars i, c ≠ '_' := by
  intro c hc
  unfold intReprChars at hc
  by_cases h : i < 0
  · rw [if_pos h] at hc
    rcases List.mem_cons.mp hc with rfl | hc
    · decide
    · exact (natReprChars_props _ c hc).2.2.1
  · rw [if_neg h] at hc
    exact (natReprChars_props _ c hc).2.2.1

/-- `consHead` never returns the empty list of pieces. -/
theorem consHead_ne_nil (c : Char) (X : List (List Char)) : consHead c X ≠ [] := by
  cases X <;> simp [consHead]

/-- `pySplitUnderscore` never returns the empty list of pieces. -/
theorem pySplitUnderscore_ne_nil (l : List Char) : pySplitUnderscore l ≠ [] := by
  cases l with
  | nil => simp [pySplitUnderscore]
  | cons c t =>
    unfold pySplitUnderscore
    by_cases h : c = '_'
    · simp [h]
    · rw [if_neg h]
      exact consHead_ne_nil _ _

/-- Splitting a string without separators yields one piece. -/
theorem pySplitUnderscore_no_underscore {l : List Char}
    (h : ∀ c ∈ l, c ≠ '_') : pySplitUnderscore l = [l] := by
  induction l with
  | nil => rfl
  | cons c t ih =>
    unfold pySplitUnderscore
    rw [if_neg (h c (List.mem_cons_self c t)),
      ih (fun x hx => h x (List.mem_cons_of_mem c hx))]
    simp [consHead]

/-- Splitting past a separator-free part peels it off as the first piece. -/
theorem pySplitUnderscore_append (l2 : List Char) : ∀ (l1 : List Char),
    (∀ c ∈ l1, c ≠ '_') →
    pySplitUnderscore (l1 ++ '_' :: l2) = l1 :: pySplitUnderscore l2 := by
  intro l1
  induction l1 with
  | nil => intro _; simp [pySplitUnderscore]
  | cons c t ih =>
    intro h
    have hc := h c (List.mem_cons_self c t)
    have iht := ih (fun x hx => h x (List.mem_cons_of_mem c hx))
    show pySplitUnderscore (c :: (t ++ '_' :: l2)) = (c :: t) :: pySplitUnderscore l2
    simp only [pySplitUnderscore]
    rw [if_neg hc, iht]
    simp [consHead]

/-- String append acts as list append on the underlying characters. -/
theorem string_toList_append (s t : String) :
    (s ++ t).toList = s.toList ++ t.toList := by
  rcases s with ⟨ls⟩
  rcases t with ⟨lt⟩
  rfl

/-- The characters of the token `f"compound_{i}"`. -/
theorem mkCompoundToken_toList (i : Int) :
    (mkCompoundToken i).toList = "compound_".toList ++ intReprChars i := by
  unfold mkCompoundToken intReprStr
  rw [string_toList_append]
  rfl

/-- A list is a prefix of itself extended by anything. -/
theorem isPrefixOf_append_self (l r : List Char) : l.isPrefixOf (l ++ r) = true := by
  induction l with
  | nil => simp [List.isPrefixOf]
  | cons a t ih => simp [List.isPrefixOf, ih]

/-! ### Toolkit: indexing and the compound-token dispatch -/

/-- `pyGet` at a non-negative index is plain list lookup. -/
theorem pyGet_nonneg {α : Type} (xs : List α) (i : Int) (h : 0 ≤ i) :
    pyGet xs i = xs.get? i.toNat := by
  simp only [pyGet]
  rw [if_neg (show ¬ i < 0 by omega), if_pos h]

/-- `pyGet` at a small negative index wraps around to the back. -/
theorem pyGet_neg {α : Type} (xs : List α) (i : Int) (h1 : i < 0)
    (h2 : 0 ≤ i + (xs.length : Int)) :
    pyGet xs i = xs.get? (i + (xs.length : Int)).toNat := by
  simp only [pyGet]
  rw [if_pos h1, if_pos h2]

/-- `pyGet` below the wrapped range raises `IndexError` (modelled as `none`). -/
theorem pyGet_far_neg {α : Type} (xs : List α) (i : Int)
    (h : i < -(xs.length : Int)) : pyGet xs i = none := by
  simp only [pyGet]
  rw [if_pos (show i < 0 by omega),
    if_neg (show ¬ ((0 : Int) ≤ i + (xs.length : Int)) by omega)]

/-- The fetch pipeline performs exactly one outbound HTTP call. -/
theorem countHttp_fetchEffects (base : String) (c : Compound)
    (http : FetchOutcome) : countHttp (fetchEffects base c http) = 1 := by
  cases http <;>
    simp [fetchEffects, countHttp, List.countP_append, List.countP_cons,
      List.countP_nil, isHttpGet]

/-- The fetch pipeline issues its GET to the base URL plus the record file. -/
theorem httpGet_mem_fetchEffects (base : String) (c : Compound)
    (http : FetchOutcome) :
    Effect.httpGet (base ++ c.file) 30 ∈ fetchEffects base c http := by
  cases http <;> simp [fetchEffects]

/-- On a request failure no document is sent. -/
theorem no_sendDocument_on_requestError (base : String) (c : Compound) :
    (fetchEffects base c .requestError).countP isSendDocument = 0 := by
  simp [fetchEffects, List.countP_append, List.countP_cons, List.countP_nil,
    isSendDocument]

/-- Characterization of `button_callback` on a `f"compound_{i}"` token: the
token always reaches the compound branch, the index parses back to `i`, and
the result depends only on the bound check and Python indexing. -/
theorem button_callback_compound (base : String) (cs rl : List Compound)
    (http : FetchOutcome) (i : Int) :
    button_callback base cs rl http (mkCompoundToken i) =
      if (cs.length : Int) ≤ i then
        ⟨cs, [.answerQuery, .editMessageText notFoundText none], none⟩
      else
        match pyGet cs i with
        | none => ⟨cs, [.answerQuery], some .indexError⟩
        | some c => ⟨cs, fetchEffects base c http, none⟩ := by
  simp only [button_callback, mkCompoundToken_toList]
  rw [show pyStartsWith ("compound_".toList ++ intReprChars i) pageTag = false
    from rfl]
  rw [if_neg (show ¬ ((false : Bool) = true) by decide)]
  rw [if_neg (show ¬ ("compound_".toList ++ intReprChars i = refreshTag) from
    fun hh => by
      have h2 := congrArg List.head? hh
      rw [show ("compound_".toList ++ intReprChars i).head? = some 'c' from rfl,
        show refreshTag.head? = some 'r' from rfl] at h2
      exact absurd h2 (by decide))]
  rw [show pyStartsWith ("compound_".toList ++ intReprChars i) compoundTag = true
    from by
      show compoundTag.isPrefixOf ("compound_".toList ++ intReprChars i) = true
      exact isPrefixOf_append_self _ _]
  rw [if_pos rfl]
  rw [show ("compound_".toList ++ intReprChars i) =
    "compound".toList ++ '_' :: intReprChars i from rfl]
  rw [pySplitUnderscore_append (intReprChars i) "compound".toList (by decide)]
  rw [pySplitUnderscore_no_underscore (intReprChars_no_underscore i)]
  simp only [List.get?_cons_succ, List.get?_cons_zero]
  rw [parseIntChars_intReprChars]

/-- A successful lookup equals `getD` at any default. -/
theorem get?_eq_some_getD {α : Type} [Inhabited α] (l : List α) (k : Nat)
    (h : k < l.length) : l.get? k = some (l.getD k default) := by
  rw [List.getD_eq_getElem?_getD, List.get?_eq_getElem?]
  cases hx : l[k]? with
  | none =>
    rw [List.getElem?_eq_none_iff] at hx
    omega
  | some x => simp

/-! ### Claim theorems: the dispatcher -/

/-- Claim C1 counterexample: with a one-record catalog, the fetch token
`"compound_-1"` has its index outside `[0, 1)`, yet handling it performs one
outbound HTTP GET (Python negative indexing reaches the last record) and does
not report "not found" — contradicting the claim that every index outside
`[0, N)`, including negative ones, yields zero HTTP calls and a "not found"
report. -/
theorem fetch_negative_index_counterexample :
    countHttp (button_callback "B/" [cpdA] [] (.ok "x") "compound_-1").effects = 1
    ∧ Effect.editMessageText notFoundText none ∉
        (button_callback "B/" [cpdA] [] (.ok "x") "compound_-1").effects := by
  exact ⟨by decide, by decide⟩

/-- Claim C1 (amended): for a catalog of length N, handling `f"compound_{i}"`
with `i ∈ [0, N)` performs exactly one outbound HTTP GET, to the base URL
concatenated with `catalog[i].file`, with timeout 30.  For `i ≥ N` it
performs zero HTTP calls and reports "not found".  Negative indices are not
rejected: for `-N ≤ i < 0` exactly one HTTP GET is attempted, to
`catalog[N+i].file` (Python negative indexing); for `i < -N` no HTTP call is
made but an `IndexError` propagates instead of a "not found" report. -/
theorem fetch_index_bounds (base : String) (cs rl : List Compound)
    (http : FetchOutcome) (i : Int) :
    ((cs.length : Int) ≤ i →
      button_callback base cs rl http (mkCompoundToken i) =
        ⟨cs, [.answerQuery, .editMessageText notFoundText none], none⟩)
    ∧ (0 ≤ i → i < (cs.length : Int) →
      countHttp (button_callback base cs rl http (mkCompoundToken i)).effects = 1
      ∧ Effect.httpGet (base ++ (cs.getD i.toNat default).file) 30
          ∈ (button_callback base cs rl http (mkCompoundToken i)).effects)
    ∧ (-(cs.length : Int) ≤ i → i < 0 →
      countHttp (button_callback base cs rl http (mkCompoundToken i)).effects = 1
      ∧ Effect.httpGet
            (base ++ (cs.getD (i + (cs.length : Int)).toNat default).file) 30
          ∈ (button_callback base cs rl http (mkCompoundToken i)).effects)
    ∧ (i < -(cs.length : Int) →
      button_callback base cs rl http (mkCompoundToken i) =
        ⟨cs, [.answerQuery], some .indexError⟩) := by
  rw [button_callback_compound]
  refine ⟨?_, ?_, ?_, ?_⟩
  · intro h
    rw [if_pos h]
  · intro h0 hlt
    rw [if_neg (by omega), pyGet_nonneg cs i h0,
      get?_eq_some_getD cs i.toNat (by omega)]
    exact ⟨countHttp_fetchEffects _ _ _, httpGet_mem_fetchEffects _ _ _⟩
  · intro h1 h2
    rw [if_neg (by omega), pyGet_neg cs i h2 (by omega),
      get?_eq_some_getD cs (i + (cs.length : Int)).toNat (by omega)]
    exact ⟨countHttp_fetchEffects _ _ _, httpGet_mem_fetchEffects _ _ _⟩
  · intro h
    rw [if_neg (by omega), pyGet_far_neg cs i h]

/-- Witness for the amended C1 theorem at a concrete two-record catalog and
the indices 5, 1, -1 and -5. -/
theorem fetch_index_bounds_witness :
    button_callback "B/" [cpdA, cpdB] [] (.ok "x") (mkCompoundToken 5) =
      ⟨[cpdA, cpdB], [.answerQuery, .editMessageText notFoundText none], none⟩
    ∧ countHttp (button_callback "B/" [cpdA, cpdB] [] (.ok "x")
        (mkCompoundToken 1)).effects = 1
    ∧ countHttp (button_callback "B/" [cpdA, cpdB] [] (.ok "x")
        (mkCompoundToken (-1))).effects = 1
    ∧ button_callback "B/" [cpdA, cpdB] [] (.ok "x") (mkCompoundToken (-5)) =
      ⟨[cpdA, cpdB], [.answerQuery], some .indexError⟩ :=
  ⟨(fetch_index_bounds "B/" [cpdA, cpdB] [] (.ok "x") 5).1 (by decide),
    ((fetch_index_bounds "B/" [cpdA, cpdB] [] (.ok "x") 1).2.1 (by decide)
      (by decide)).1,
    ((fetch_index_bounds "B/" [cpdA, cpdB] [] (.ok "x") (-1)).2.2.1 (by decide)
      (by decide)).1,
    (fetch_index_bounds "B/" [cpdA, cpdB] [] (.ok "x") (-5)).2.2.2 (by decide)⟩

/-- Claim C2 counterexample: starting from the non-empty catalog `[cpdA]`, a
refresh whose reload fails (malformed JSON) leaves the empty catalog, not the
previously held one — contradicting the claim that a failed reload keeps the
existing non-empty catalog. -/
theorem refresh_failed_reload_counterexample :
    (button_callback "B/" [cpdA] (load_compounds .malformedJson).1
        .requestError "refresh").compounds = []
    ∧ [cpdA] ≠ ([] : List Compound) :=
  ⟨rfl, by decide⟩

/-- Claim C2 (amended): when a refresh action occurs and the catalog reload
fails, the catalog afterwards is the loader's failure result — the empty
sequence — regardless of what non-empty catalog was previously held; the old
catalog is discarded, not retained. -/
theorem refresh_failed_reload_discards (base : String) (cs : List Compound)
    (http : FetchOutcome) (inp : LoadInput) (hfail : inp.isSuccess = false) :
    (load_compounds inp).1 = []
    ∧ (button_callback base cs (load_compounds inp).1 http "refresh").compounds
        = [] := by
  cases inp with
  | ok cs2 => exact absurd hfail (by simp [LoadInput.isSuccess])
  | fileMissing => exact ⟨rfl, rfl⟩
  | malformedJson => exact ⟨rfl, rfl⟩
  | missingKey => exact ⟨rfl, rfl⟩

/-- Witness for the amended C2 theorem at the malformed-JSON reload over a
non-empty previous catalog. -/
theorem refresh_failed_reload_discards_witness :
    (load_compounds .malformedJson).1 = []
    ∧ (button_callback "B/" [cpdA] (load_compounds .malformedJson).1 .requestError
        "refresh").compounds = [] :=
  refresh_failed_reload_discards "B/" [cpdA] .requestError .malformedJson
    (by decide)

/-- Claim C5: every refresh action replaces the catalog entirely with the
newly loaded sequence (no merging), re-renders the menu at page 0, and the
confirmation text reports the new record count. -/
theorem refresh_replaces_catalog (base : String) (cs : List Compound)
    (inp : LoadInput) (http : FetchOutcome) :
    button_callback base cs (load_compounds inp).1 http "refresh" =
      ⟨(load_compounds inp).1,
        [.answerQuery,
          .editMessageText (refreshText (load_compounds inp).1.length)
            (some (create_keyboard (load_compounds inp).1 0))],
        none⟩
    ∧ refreshText (load_compounds inp).1.length =
        "🔄 **List refreshed!**\n\n📚 **Available Compounds:** " ++
          natReprStr (load_compounds inp).1.length ++ "\n\nSelect a compound:" :=
  ⟨rfl, rfl⟩

/-- Claim C7: for every in-range fetch whose HTTP GET succeeds, the pipeline
sends the raw response body as a document named exactly `record.file` with
the describing caption, then deletes the interim notice, then sends a fresh
success confirmation whose keyboard is the single back-to-page-0 button. -/
theorem fetch_success_pipeline (base : String) (cs rl : List Compound)
    (body : String) (k : Nat) (h : k < cs.length) :
    button_callback base cs rl (.ok body) (mkCompoundToken (k : Int)) =
      ⟨cs,
        [.answerQuery,
          .editMessageText (loadingText (cs.getD k default)) none,
          .httpGet (base ++ (cs.getD k default).file) 30,
          .sendDocument body (cs.getD k default).file
            (captionText (cs.getD k default)),
          .deleteMessage,
          .sendMessage (successText (cs.getD k default)) (some backKeyboard)],
        none⟩
    ∧ backKeyboard = [[⟨"🔙 Back to List", "page_0"⟩]] := by
  constructor
  · rw [button_callback_compound]
    rw [if_neg (by omega), pyGet_nonneg _ _ (by omega),
      show ((k : Int)).toNat = k by omega, get?_eq_some_getD cs k h]
    rfl
  · rfl

/-- Witness for the C7 theorem at a one-record catalog and a 200 response
with body `"<html>"`. -/
theorem fetch_success_pipeline_witness :
    button_callback "B/" [cpdA] [] (.ok "<html>")
        (mkCompoundToken ((0 : Nat) : Int)) =
      ⟨[cpdA],
        [.answerQuery,
          .editMessageText (loadingText cpdA) none,
          .httpGet "B/water.html" 30,
          .sendDocument "<html>" "water.html" (captionText cpdA),
          .deleteMessage,
          .sendMessage (successText cpdA) (some backKeyboard)],
        none⟩ :=
  (fetch_success_pipeline "B/" [cpdA] [] "<html>" 0 (by decide)).1

/-- Claim C8: for every in-range fetch whose HTTP GET fails with a request
error (network error, timeout, or a non-2xx status surfaced by
`raise_for_status`), exactly one HTTP attempt is made, no document is sent,
and the interim notice is replaced by a failure message naming exactly
`record.file`. -/
theorem fetch_failure_pipeline (base : String) (cs rl : List Compound)
    (k : Nat) (h : k < cs.length) :
    button_callback base cs rl .requestError (mkCompoundToken (k : Int)) =
      ⟨cs,
        [.answerQuery,
          .editMessageText (loadingText (cs.getD k default)) none,
          .httpGet (base ++ (cs.getD k default).file) 30,
          .editMessageText (fetchErrText (cs.getD k default)) none],
        none⟩
    ∧ countHttp (button_callback base cs rl .requestError
        (mkCompoundToken (k : Int))).effects = 1
    ∧ (button_callback base cs rl .requestError
        (mkCompoundToken (k : Int))).effects.countP isSendDocument = 0
    ∧ fetchErrText (cs.getD k default) =
        "❌ **Error downloading file!**\n\nFile: `" ++ (cs.getD k default).file ++
          "`\nError: Connection timeout or file not found\n\nPlease make sure the file exists in the `compounds` branch." := by
  have hmain : button_callback base cs rl .requestError
      (mkCompoundToken (k : Int)) =
      ⟨cs,
        [.answerQuery,
          .editMessageText (loadingText (cs.getD k default)) none,
          .httpGet (base ++ (cs.getD k default).file) 30,
          .editMessageText (fetchErrText (cs.getD k default)) none],
        none⟩ := by
    rw [button_callback_compound]
    rw [if_neg (by omega), pyGet_nonneg _ _ (by omega),
      show ((k : Int)).toNat = k by omega, get?_eq_some_getD cs k h]
    rfl
  refine ⟨hmain, ?_, ?_, rfl⟩
  · rw [hmain]
    simp [countHttp, List.countP_cons, List.countP_nil, isHttpGet]
  · rw [hmain]
    simp [List.countP_cons, List.countP_nil, isSendDocument]

/-- Witness for the C8 theorem at a one-record catalog and a timed-out GET. -/
theorem fetch_failure_pipeline_witness :
    button_callback "B/" [cpdA] [] .requestError
        (mkCompoundToken ((0 : Nat) : Int)) =
      ⟨[cpdA],
        [.answerQuery,
          .editMessageText (loadingText cpdA) none,
          .httpGet "B/water.html" 30,
          .editMessageText (fetchErrText cpdA) none],
        none⟩ :=
  (fetch_failure_pipeline "B/" [cpdA] [] 0 (by decide)).1

/-- Claim C9: a token with a known prefix but a non-integer payload
(`"page_x"`, `"compound_x"`) makes `int(data.split("_")[1])` raise a
`ValueError` that propagates out of the handler after only the
acknowledgement effect — unlike an unknown-prefix token, which is silently
ignored — and the top-level error handler then surfaces the generic failure
message. -/
theorem invalid_payload_raises (base : String) (cs rl : List Compound)
    (http : FetchOutcome) :
    (button_callback base cs rl http "page_x").error = some .valueError
    ∧ (button_callback base cs rl http "page_x").effects = [.answerQuery]
    ∧ (button_callback base cs rl http "compound_x").error = some .valueError
    ∧ (button_callback base cs rl http "compound_x").effects = [.answerQuery]
    ∧ (button_callback base cs rl http "foo").error = none
    ∧ error_handler true = [.sendMessage errHandlerText none] :=
  ⟨rfl, rfl, rfl, rfl, rfl, rfl⟩

/-! ### Toolkit: slicing and pagination arithmetic -/

/-- Python slicing at natural bounds is drop-then-take. -/
theorem pySlice_coe {α : Type} (xs : List α) (a b : Nat) :
    pySlice xs (a : Int) (b : Int) = (xs.drop a).take (b - a) := by
  simp only [pySlice]
  rw [if_neg (show ¬ ((a : Int) < 0) by omega),
    if_neg (show ¬ ((b : Int) < 0) by omega)]
  have ha : (min (a : Int) (xs.length : Int)).toNat = min a xs.length := by
    rw [← Nat.cast_min]
    omega
  have hb : (min (b : Int) (xs.length : Int)).toNat = min b xs.length := by
    rw [← Nat.cast_min]
    omega
  rw [ha, hb]
  rcases le_or_lt a xs.length with h | h
  · rw [min_eq_left h, List.take_eq_take, List.length_drop]
    omega
  · rw [min_eq_right h.le, List.drop_length, List.drop_eq_nil_of_le h.le]
    simp

/-- The page count covers the whole catalog. -/
theorem total_pages_mul_ge (P N : Nat) (hP : 0 < P) :
    N ≤ total_pages_gen P N * P := by
  unfold total_pages_gen
  by_contra hlt
  push_neg at hlt
  have h2 : ((N + P - 1) / P + 1) * P ≤ N + P - 1 := by
    rw [Nat.succ_mul]
    omega
  have h3 : (N + P - 1) / P + 1 ≤ (N + P - 1) / P :=
    (Nat.le_div_iff_mul_le hP).mpr h2
  omega

/-- Every page before the count starts strictly inside the catalog. -/
theorem lt_total_pages_mul (P N i : Nat) (hP : 0 < P)
    (h : i < total_pages_gen P N) : i * P < N := by
  unfold total_pages_gen at h
  have h2 : (i + 1) * P ≤ N + P - 1 := (Nat.le_div_iff_mul_le hP).mp h
  rw [Nat.succ_mul] at h2
  omega

/-- The rounded-up page count, expressed through division and remainder. -/
theorem total_pages_eq_div (P N : Nat) (hP : 0 < P) :
    total_pages_gen P N = if N % P = 0 then N / P else N / P + 1 := by
  unfold total_pages_gen
  have hdm := Nat.div_add_mod N P
  have hmod : N % P < P := Nat.mod_lt _ hP
  by_cases hr : N % P = 0
  · rw [if_pos hr]
    have h1 : N + P - 1 = (P - 1) + (N / P) * P := by
      rw [Nat.mul_comm]
      omega
    rw [h1, Nat.add_mul_div_right _ _ hP, Nat.div_eq_of_lt (by omega)]
    omega
  · rw [if_neg hr]
    have h1 : N + P - 1 = (N % P - 1) + (N / P + 1) * P := by
      rw [Nat.succ_mul, Nat.mul_comm]
      omega
    rw [h1, Nat.add_mul_div_right _ _ hP, Nat.div_eq_of_lt (by omega)]
    omega

/-- A page slice is drop-then-take at the page boundary. -/
theorem page_slice_eq (cs : List Compound) (P i : Nat) :
    page_slice cs P i = (cs.drop (i * P)).take P := by
  unfold page_slice
  rw [pySlice_coe]
  simp only [Nat.add_sub_cancel_left]

/-- Length of each page: the page size everywhere except possibly the last
page, whose length is the remainder (or the page size when it divides). -/
theorem page_slice_length (P : Nat) (hP : 0 < P) (cs : List Compound) (i : Nat)
    (h : i < total_pages_gen P cs.length) :
    (page_slice cs P i).length =
      if i + 1 < total_pages_gen P cs.length then P
      else if cs.length % P = 0 then P else cs.length % P := by
  rw [page_slice_eq, List.length_take, List.length_drop]
  by_cases hlast : i + 1 < total_pages_gen P cs.length
  · rw [if_pos hlast]
    have h1 := lt_total_pages_mul P cs.length (i + 1) hP hlast
    rw [Nat.succ_mul] at h1
    omega
  · rw [if_neg hlast]
    have htp : i + 1 = total_pages_gen P cs.length := by omega
    have hdm := Nat.div_add_mod cs.length P
    have hmod : cs.length % P < P := Nat.mod_lt _ hP
    have hq := total_pages_eq_div P cs.length hP
    by_cases hr : cs.length % P = 0
    · rw [if_pos hr]
      rw [hq, if_pos hr] at htp
      rw [← htp, Nat.mul_succ, Nat.mul_comm P i] at hdm
      omega
    · rw [if_neg hr]
      rw [hq, if_neg hr] at htp
      have hiq : i = cs.length / P := by omega
      rw [← hiq, Nat.mul_comm P i] at hdm
      omega

/-- Concatenating the first `k` pages gives the first `k * P` records. -/
theorem paginate_flatten_aux (P : Nat) (cs : List Compound) :
    ∀ k, ((List.range k).map (page_slice cs P)).flatten = cs.take (k * P) := by
  intro k
  induction k with
  | zero => simp
  | succ k ih =>
    rw [List.range_succ, List.map_append, List.flatten_append, ih]
    simp only [List.map_cons, List.map_nil, List.flatten_cons, List.flatten_nil,
      List.append_nil]
    rw [page_slice_eq, Nat.succ_mul, List.take_add]

/-- Claim C3: for every page size P > 0 and catalog, the source's slicing
scheme yields `ceil(N/P)` pages; every page has length P except possibly the
last, whose length is `N mod P` (or `P` when the remainder is zero); and
concatenating the pages in order reproduces the catalog exactly. -/
theorem pagination_correct (P : Nat) (hP : 0 < P) (cs : List Compound) :
    (paginate cs P).length = cs.length ⌈/⌉ P
    ∧ (paginate cs P).map List.length =
        (List.range (total_pages_gen P cs.length)).map (fun i =>
          if i + 1 < total_pages_gen P cs.length then P
          else if cs.length % P = 0 then P else cs.length % P)
    ∧ (paginate cs P).flatten = cs := by
  refine ⟨?_, ?_, ?_⟩
  · simp only [paginate, List.length_map, List.length_range]
    rw [Nat.ceilDiv_eq_add_pred_div]
    rfl
  · unfold paginate
    rw [List.map_map]
    refine List.map_congr_left ?_
    intro i hi
    rw [List.mem_range] at hi
    simpa [Function.comp] using page_slice_length P hP cs i hi
  · unfold paginate
    rw [paginate_flatten_aux]
    exact List.take_of_length_le (total_pages_mul_ge P cs.length hP)

/-- Witness for the C3 theorem at page size 8 over the ten-record catalog. -/
theorem pagination_correct_witness :
    0 < 8 ∧
    ((paginate c10 8).length = c10.length ⌈/⌉ 8
     ∧ (paginate c10 8).map List.length =
         (List.range (total_pages_gen 8 c10.length)).map (fun i =>
           if i + 1 < total_pages_gen 8 c10.length then 8
           else if c10.length % 8 = 0 then 8 else c10.length % 8)
     ∧ (paginate c10 8).flatten = c10) :=
  ⟨by decide, pagination_correct 8 (by decide) c10⟩

/-! ### Toolkit: keyboard structure -/

/-- Every button of the compound grid is a compound selection button. -/
theorem mem_buttonRows : ∀ (l : List Compound) (j : Int) (b : Button),
    b ∈ (buttonRows l j).flatten → ∃ k c, b = compoundButton k c
  | [], _, b => by simp [buttonRows]
  | [c], j, b => by
    simp only [buttonRows, List.flatten_cons, List.flatten_nil, List.append_nil,
      List.mem_singleton]
    intro h
    exact ⟨j, c, h⟩
  | c1 :: c2 :: rest, j, b => by
    intro h
    rw [show buttonRows (c1 :: c2 :: rest) j =
        [compoundButton j c1, compoundButton (j + 1) c2] ::
          buttonRows rest (j + 2) from rfl,
      List.flatten_cons, List.mem_append] at h
    rcases h with h | h
    · rcases List.mem_cons.mp h with h | h
      · exact ⟨j, c1, h⟩
      · rcases List.mem_cons.mp h with h | h
        · exact ⟨j + 1, c2, h⟩
        · exact absurd h (List.not_mem_nil b)
    · exact mem_buttonRows rest (j + 2) b h

/-- First character of a compound button's callback token. -/
theorem compoundButton_head (k : Int) (c : Compound) :
    (compoundButton k c).callback_data.data.head? = some 'c' := rfl

/-- First character of the previous button's callback token. -/
theorem prevButton_head (p : Int) :
    (prevButton p).callback_data.data.head? = some 'p' := rfl

/-- First character of the next button's callback token. -/
theorem nextButton_head (p : Int) :
    (nextButton p).callback_data.data.head? = some 'p' := rfl

/-- First character of the refresh button's callback token. -/
theorem refreshButton_head :
    refreshButton.callback_data.data.head? = some 'r' := rfl

/-- Buttons whose callback tokens start differently are different. -/
theorem button_ne_of_head {b1 b2 : Button} (c1 c2 : Char)
    (h1 : b1.callback_data.data.head? = some c1)
    (h2 : b2.callback_data.data.head? = some c2) (hne : c1 ≠ c2) :
    b1 ≠ b2 := by
  intro he
  rw [he, h2] at h1
  exact hne (Option.some.inj h1).symm

/-- The previous button is never a compound button. -/
theorem prev_ne_compound (p k : Int) (c : Compound) :
    prevButton p ≠ compoundButton k c :=
  button_ne_of_head 'p' 'c' (prevButton_head p) (compoundButton_head k c)
    (by decide)

/-- The next button is never a compound button. -/
theorem next_ne_compound (p k : Int) (c : Compound) :
    nextButton p ≠ compoundButton k c :=
  button_ne_of_head 'p' 'c' (nextButton_head p) (compoundButton_head k c)
    (by decide)

/-- The previous button is never the refresh button. -/
theorem prev_ne_refresh (p : Int) : prevButton p ≠ refreshButton :=
  button_ne_of_head 'p' 'r' (prevButton_head p) refreshButton_head (by decide)

/-- The next button is never the refresh button. -/
theorem next_ne_refresh (p : Int) : nextButton p ≠ refreshButton :=
  button_ne_of_head 'p' 'r' (nextButton_head p) refreshButton_head (by decide)

/-- The previous and next buttons differ (their labels differ). -/
theorem prev_ne_next (p q : Int) : prevButton p ≠ nextButton q := by
  intro he
  have h2 := congrArg Button.text he
  rw [show (prevButton p).text = "⬅️ Previous" from rfl,
    show (nextButton q).text = "➡️ Next" from rfl] at h2
  exact absurd h2 (by decide)

/-- Flattening the conditional navigation row recovers its buttons. -/
theorem flatten_if_isEmpty (l : List Button) :
    (if l.isEmpty then ([] : Keyboard) else [l]).flatten = l := by
  cases l <;> simp

/-- Membership in the rendered keyboard, split by provenance: compound grid,
navigation row, or refresh row. -/
theorem mem_create_keyboard (cs : List Compound) (page : Int) (b : Button) :
    b ∈ (create_keyboard cs page).flatten ↔
      b ∈ (buttonRows
            (pySlice cs (page * (ITEMS_PER_PAGE : Int))
              (page * (ITEMS_PER_PAGE : Int) + (ITEMS_PER_PAGE : Int)))
            (page * (ITEMS_PER_PAGE : Int))).flatten
      ∨ b ∈ ((if 0 < page then [prevButton page] else []) ++
          (if page < (total_pages_gen ITEMS_PER_PAGE cs.length : Int) - 1 then
            [nextButton page] else []))
      ∨ b = refreshButton := by
  simp only [create_keyboard, List.flatten_append, List.mem_append,
    flatten_if_isEmpty, List.flatten_cons, List.flatten_nil, List.append_nil,
    List.mem_singleton]
  tauto

/-- Claim C4: for every catalog and in-range page, the rendered menu carries
the "previous" control exactly when the page is not 0, and the "next" control
exactly when the page is not the last page. -/
theorem nav_controls (cs : List Compound) (page : Nat)
    (h : page < total_pages_gen ITEMS_PER_PAGE cs.length) :
    ((prevButton (page : Int) ∈ (create_keyboard cs (page : Int)).flatten) ↔
      page ≠ 0)
    ∧ ((nextButton (page : Int) ∈ (create_keyboard cs (page : Int)).flatten) ↔
      page ≠ total_pages_gen ITEMS_PER_PAGE cs.length - 1) := by
  constructor
  · rw [mem_create_keyboard]
    constructor
    · rintro (hm | hm | hm)
      · obtain ⟨k, c, he⟩ := mem_buttonRows _ _ _ hm
        exact absurd he (prev_ne_compound _ _ _)
      · rw [List.mem_append] at hm
        rcases hm with hm | hm
        · by_cases hp : (0 : Int) < (page : Int)
          · intro h0
            omega
          · rw [if_neg hp] at hm
            simp at hm
        · by_cases hq : (page : Int) <
              (total_pages_gen ITEMS_PER_PAGE cs.length : Int) - 1
          · rw [if_pos hq, List.mem_singleton] at hm
            exact absurd hm (prev_ne_next _ _)
          · rw [if_neg hq] at hm
            simp at hm
      · exact absurd hm (prev_ne_refresh _)
    · intro h0
      right; left
      rw [List.mem_append]
      left
      rw [if_pos (show (0 : Int) < (page : Int) by omega)]
      simp
  · rw [mem_create_keyboard]
    constructor
    · rintro (hm | hm | hm)
      · obtain ⟨k, c, he⟩ := mem_buttonRows _ _ _ hm
        exact absurd he (next_ne_compound _ _ _)
      · rw [List.mem_append] at hm
        rcases hm with hm | hm
        · by_cases hp : (0 : Int) < (page : Int)
          · rw [if_pos hp, List.mem_singleton] at hm
            exact absurd hm.symm (prev_ne_next _ _)
          · rw [if_neg hp] at hm
            simp at hm
        · by_cases hq : (page : Int) <
              (total_pages_gen ITEMS_PER_PAGE cs.length : Int) - 1
          · intro h0
            omega
          · rw [if_neg hq] at hm
            simp at hm
      · exact absurd hm (next_ne_refresh _)
    · intro h0
      right; left
      rw [List.mem_append]
      right
      rw [if_pos (show (page : Int) <
        (total_pages_gen ITEMS_PER_PAGE cs.length : Int) - 1 by omega)]
      simp

/-- Witness for the C4 theorem: ten records, page size 8, page 0 — no
"previous" control and a "next" control, as in the spec's scenario. -/
theorem nav_controls_witness :
    (0 : Nat) < total_pages_gen ITEMS_PER_PAGE c10.length ∧
    (((prevButton ((0 : Nat) : Int) ∈
        (create_keyboard c10 ((0 : Nat) : Int)).flatten) ↔ (0 : Nat) ≠ 0)
     ∧ ((nextButton ((0 : Nat) : Int) ∈
        (create_keyboard c10 ((0 : Nat) : Int)).flatten) ↔
        (0 : Nat) ≠ total_pages_gen ITEMS_PER_PAGE c10.length - 1)) :=
  ⟨by decide, nav_controls c10 0 (by decide)⟩

/-- Claim C10: rendering is total for every non-negative page index; at or
beyond the last page the keyboard has zero compound buttons, a "previous"
control exactly when the page is positive, no "next" control, and the
refresh control as the final row. -/
theorem render_out_of_range (cs : List Compound) (page : Nat)
    (h : total_pages_gen ITEMS_PER_PAGE cs.length ≤ page) :
    create_keyboard cs (page : Int) =
      (if 0 < page then [[prevButton (page : Int)]] else []) ++ [[refreshButton]]
    ∧ (create_keyboard cs (page : Int)).getLast? = some [refreshButton] := by
  have hsl : pySlice cs ((page : Int) * (ITEMS_PER_PAGE : Int))
      ((page : Int) * (ITEMS_PER_PAGE : Int) + (ITEMS_PER_PAGE : Int)) = [] := by
    rw [show ((page : Int) * (ITEMS_PER_PAGE : Int)) =
        ((page * ITEMS_PER_PAGE : Nat) : Int) by push_cast; ring,
      show ((page * ITEMS_PER_PAGE : Nat) : Int) + (ITEMS_PER_PAGE : Int) =
        ((page * ITEMS_PER_PAGE + ITEMS_PER_PAGE : Nat) : Int) by push_cast; ring,
      pySlice_coe]
    have hle : cs.length ≤ page * ITEMS_PER_PAGE := by
      have h1 := total_pages_mul_ge ITEMS_PER_PAGE cs.length (by decide)
      have h2 : total_pages_gen ITEMS_PER_PAGE cs.length * ITEMS_PER_PAGE ≤
          page * ITEMS_PER_PAGE := Nat.mul_le_mul_right _ h
      omega
    rw [List.drop_eq_nil_of_le hle]
    simp
  have hmain : create_keyboard cs (page : Int) =
      (if 0 < page then [[prevButton (page : Int)]] else []) ++
        [[refreshButton]] := by
    simp only [create_keyboard]
    rw [hsl]
    rw [if_neg (show ¬ ((page : Int) <
      (total_pages_gen ITEMS_PER_PAGE cs.length : Int) - 1) by omega)]
    by_cases hp : 0 < page
    · rw [if_pos (show (0 : Int) < (page : Int) by omega), if_pos hp]
      simp [buttonRows]
    · rw [if_neg (show ¬ ((0 : Int) < (page : Int)) by omega), if_neg hp]
      simp [buttonRows]
  exact ⟨hmain, by rw [hmain]; exact List.getLast?_concat _⟩

/-- Witness for the C10 theorem: page 5 of the ten-record catalog is past the
last page (page 1), and renders as just a "previous" row and the refresh
row. -/
theorem render_out_of_range_witness :
    total_pages_gen ITEMS_PER_PAGE c10.length ≤ 5 ∧
    (create_keyboard c10 ((5 : Nat) : Int) =
        (if 0 < (5 : Nat) then [[prevButton ((5 : Nat) : Int)]] else []) ++
          [[refreshButton]]
     ∧ (create_keyboard c10 ((5 : Nat) : Int)).getLast? =
        some [refreshButton]) :=
  ⟨by decide, render_out_of_range c10 5 (by decide)⟩

/-! ### Claim theorems: loader and startup -/

/-- Claim C6: for every failing load input (missing file, malformed JSON, or
missing top-level key) the loader returns the empty sequence and logs the
cause; and when the initial load yields an empty catalog, a process with its
configuration present reports the condition and halts before serving. -/
theorem loader_failure_and_startup_halt (inp : LoadInput)
    (hfail : inp.isSuccess = false) (t u r : Option String)
    (ht : pyTruthy t = true) (hu : pyTruthy u = true)
    (hr : pyTruthy r = true) :
    (load_compounds inp).1 = []
    ∧ (load_compounds inp).2 = [loadErrText inp]
    ∧ Bot.main t u r (load_compounds inp).1 =
        .halted "No compounds found in compounds.json!" := by
  have h1 : (load_compounds inp).1 = []
      ∧ (load_compounds inp).2 = [loadErrText inp] := by
    cases inp with
    | ok cs => exact absurd hfail (by simp [LoadInput.isSuccess])
    | fileMissing => exact ⟨rfl, rfl⟩
    | malformedJson => exact ⟨rfl, rfl⟩
    | missingKey => exact ⟨rfl, rfl⟩
  refine ⟨h1.1, h1.2, ?_⟩
  rw [h1.1]
  simp [Bot.main, ht, hu, hr]

/-- Witness for the C6 theorem: malformed JSON at initial load with a fully
configured environment. -/
theorem loader_failure_and_startup_halt_witness :
    (load_compounds .malformedJson).1 = []
    ∧ (load_compounds .malformedJson).2 = [loadErrText .malformedJson]
    ∧ Bot.main (some "t") (some "u") (some "r")
        (load_compounds .malformedJson).1 =
        .halted "No compounds found in compounds.json!" :=
  loader_failure_and_startup_halt .malformedJson (by decide) (some "t")
    (some "u") (some "r") (by decide) (by decide) (by decide)
